import Mathlib

/-!
Verification development for the HRMS adduct-mass calculator (`src/app.py`).

The core of the program is the function `calculate_adducts(formula_str,
selected_adducts)` (app.py lines 47–87): it trims the input, short-circuits
empty/`nan` placeholders, parses the formula with the `molmass` library,
computes the monoisotopic neutral mass, derives the selected adduct m/z
values from the constant table `ADDUCTS_LIB`, and maps every exception of
that whole body to the row status `"格式错误"`.

Floating-point masses are embedded as exact rationals (`ℚ`); the constants
are the decimal literals that appear in the source.  The `molmass` library
itself is not part of the repository, so the formula parser is modelled
from the specification (§4.1); every definition below says which source it
embeds.
-/

/-- A result value: either a normal value or a raised Python exception.
`err` corresponds to an exception propagating out of the modelled code. -/
inductive Res (ε α : Type) where
  | ok (a : α)
  | err (e : ε)
deriving DecidableEq

/-- Parse-failure classification of the formula parser.
Modelled from the spec: §4.1/§7 name the kinds `UnsupportedCharacters`
(input has characters no token consumes) and `UnknownElement(symbol)`
(a well-formed token whose symbol is absent from the element-mass table). -/
inductive ParseErrorKind where
  | unsupportedCharacters
  | unknownElement (sym : String)
deriving DecidableEq

/-- An exception inside the body of `calculate_adducts`: either a formula
parse failure raised by `Formula(...)`, or the `TypeError` raised by
`mono_mass + delta` when `delta` is `None` or a string. -/
inductive PyExc where
  | formulaError (k : ParseErrorKind)
  | typeError
deriving DecidableEq

/-- Python `str.strip()` on the input (app.py line 53): drop leading and
trailing whitespace. -/
def pyStrip (s : String) : String :=
  ⟨((s.data.dropWhile Char.isWhitespace).reverse.dropWhile Char.isWhitespace).reverse⟩

/-- Python `str.lower()` (app.py line 54), ASCII case folding. -/
def pyLower (s : String) : String :=
  ⟨s.data.map Char.toLower⟩

/-- Modelled from the spec: the element-mass table used by the parser
(§3 "ElementMass table"); the spec does not list the table, so it is
populated with the standard monoisotopic masses that reproduce the spec's
reference values (H2O ≈ 18.01056, C6H12O6 ≈ 180.06339, and the elements of
the worked examples NaCl, KBr). -/
def ELEMENT_MASS : List (String × ℚ) :=
  [("H", 1.00782503207), ("C", 12), ("N", 14.0030740048), ("O", 15.9949146196),
   ("Na", 22.9897692809), ("P", 30.97376163), ("S", 31.97207100),
   ("Cl", 34.96885268), ("K", 38.96370668), ("Br", 78.9183371)]

def lookupMass (sym : String) : Option ℚ :=
  ELEMENT_MASS.lookup sym

/-- One matched token of the formula pattern: an element symbol
(uppercase letter, optional lowercase letter) and its count digits as
written (empty means "no digits", i.e. count 1). -/
structure FToken where
  symChars : List Char
  digitChars : List Char
deriving DecidableEq

/-- Numeric value of a digit string. -/
def digitsVal (l : List Char) : Nat :=
  l.foldl (fun a c => a * 10 + (c.toNat - 48)) 0

/-- Count of a token: absent digits mean 1, otherwise the written value
(`0` is legal and retained, spec §4.1 edge cases). -/
def tokenCount (t : FToken) : Nat :=
  if t.digitChars = [] then 1 else digitsVal t.digitChars

/-- Close the token currently being scanned, if any, appending it to the
accumulator. -/
def closeTok (acc : List FToken) (cur : Option FToken) : List FToken :=
  match cur with
  | none => acc
  | some t => acc ++ [t]

/-- Modelled from the spec: one step of the left-to-right scan of the token
pattern "one uppercase letter, optionally one lowercase letter, optionally
digits" (§4.1 step 4).  The state is (tokens already matched, token still
being extended).  A character no token consumes closes the current token
and is skipped; the reconstruction check later detects it. -/
def scanStep (st : List FToken × Option FToken) (c : Char) :
    List FToken × Option FToken :=
  if c.isUpper then
    (closeTok st.1 st.2, some ⟨[c], []⟩)
  else if c.isLower then
    match st.2 with
    | some t =>
        if t.symChars.length = 1 ∧ t.digitChars = [] then
          (st.1, some ⟨t.symChars ++ [c], []⟩)
        else
          (closeTok st.1 st.2, none)
    | none => (st.1, none)
  else if c.isDigit then
    match st.2 with
    | some t => (st.1, some ⟨t.symChars, t.digitChars ++ [c]⟩)
    | none => (st.1, none)
  else
    (closeTok st.1 st.2, none)

/-- Modelled from the spec: tokenizer of §4.1 step 4, scanning the cleaned
character list once and collecting the matched (symbol, count) tokens. -/
def tokenize (cs : List Char) : List FToken :=
  let st := cs.foldl scanStep ([], none)
  closeTok st.1 st.2

/-- Total number of input characters consumed by the matched tokens
(symbol letters plus count digits as written), for the reconstruction
check of §4.1 step 5. -/
def tokensLen (ts : List FToken) : Nat :=
  (ts.map (fun t => t.symChars.length + t.digitChars.length)).sum

/-- First token whose symbol is absent from the element-mass table
(§4.1 step 6), if any. -/
def firstUnknown : List FToken → Option String
  | [] => none
  | t :: ts =>
      if (lookupMass (⟨t.symChars⟩ : String)).isSome then firstUnknown ts
      else some (⟨t.symChars⟩ : String)

/-- Add a (symbol, count) pair to the element-count mapping, summing counts
when the symbol already appears (§4.1 step 7). -/
def addCount : List (String × Nat) → String → Nat → List (String × Nat)
  | [], s, n => [(s, n)]
  | (s0, n0) :: rest, s, n =>
      if s0 = s then (s0, n0 + n) :: rest else (s0, n0) :: addCount rest s n

/-- Accumulate all tokens into the element-count mapping, in encounter
order. -/
def buildMap (ts : List FToken) : List (String × Nat) :=
  ts.foldl (fun acc t => addCount acc (⟨t.symChars⟩ : String) (tokenCount t)) []

/-- Neutral monoisotopic mass of an element-count mapping: the sum of
`ElementMass[symbol] * count` (§4.2).  Symbols are known by the time this
runs, so the default `0` branch of the lookup is never taken. -/
def mapMass : List (String × Nat) → ℚ
  | [] => 0
  | (s, n) :: rest => (lookupMass s).getD 0 * (n : ℚ) + mapMass rest

/-- Remove every whitespace character of the string (§4.1 step 3: formulas
must not contain internal spaces, so all whitespace is stripped before
tokenizing). -/
def stripWs (s : String) : List Char :=
  s.data.filter (fun c => ¬ c.isWhitespace)

/-- Modelled from the spec: parse of an already-whitespace-free character
list (§4.1 steps 4–8): tokenize, reconstruction check, element lookup,
count accumulation.  On success it returns the display formula, the
element-count mapping and the neutral monoisotopic mass — the data
`calculate_adducts` reads off the `molmass` formula object
(`f.formula`, `f.isotope.mass`). -/
def parseCleaned (cleaned : List Char) :
    Res ParseErrorKind (String × List (String × Nat) × ℚ) :=
  let toks := tokenize cleaned
  if tokensLen toks = cleaned.length then
    match firstUnknown toks with
    | some sym => .err (.unknownElement sym)
    | none => .ok ((⟨cleaned⟩ : String), buildMap toks, mapMass (buildMap toks))
  else
    .err .unsupportedCharacters

/-- Modelled from the spec: the formula parser `Formula(f_str)` of the
`molmass` library, which is not part of this repository (app.py line 57
only calls it).  Per §4.1 step 3 it first strips all whitespace, then
parses the cleaned string. -/
def parseFml (s : String) : Res ParseErrorKind (String × List (String × Nat) × ℚ) :=
  parseCleaned (stripWs s)

/-- A value of the Python dict `ADDUCTS_LIB`: a numeric mass delta, or one
of the string markers `"dimer_h"` / `"dimer_na"`. -/
inductive AdductVal where
  | num (q : ℚ)
  | tag (s : String)
deriving DecidableEq

/-- The adduct catalog `ADDUCTS_LIB` of app.py lines 17–32, with the exact
constants of the source. -/
def ADDUCTS_LIB : List (String × AdductVal) :=
  [("[M+H]+", .num 1.007276),
   ("[M+Na]+", .num 22.989769),
   ("[M+NH4]+", .num 18.034374),
   ("[M+K]+", .num 38.963706),
   ("[M+2H]2+", .num (1.007276 / 2)),
   ("[2M+H]+", .tag "dimer_h"),
   ("[2M+Na]+", .tag "dimer_na"),
   ("[M-H]-", .num (-1.007276)),
   ("[M+Cl]-", .num 34.968853),
   ("[M+HCOO]-", .num 44.997655),
   ("[M+CH3COO]-", .num 59.013305)]

/-- The default ion selection of app.py line 35. -/
def DEFAULT_SELECTION : List String := ["[M+H]+", "[M+Na]+", "[M-H]-"]

/-- The m/z computed for one selected adduct name inside the loop of
app.py lines 67–82: the three special-cased labels use their dedicated
formulas; every other label adds `ADDUCTS_LIB.get(name)` to the neutral
mass, which raises `TypeError` when the lookup yields `None` (unknown
label) or a string marker. -/
def adductMass (M : ℚ) (name : String) : Res PyExc ℚ :=
  if name = "[2M+H]+" then .ok (M * 2 + 1.007276)
  else if name = "[2M+Na]+" then .ok (M * 2 + 22.989769)
  else if name = "[M+2H]2+" then .ok ((M + 2 * 1.007276) / 2)
  else
    match ADDUCTS_LIB.lookup name with
    | some (.num d) => .ok (M + d)
    | some (.tag _) => .err .typeError
    | none => .err .typeError

/-- The `for adduct_name in selected_adducts` loop of app.py lines 67–82,
collecting the (label, m/z) entries appended to the result dict; an
exception anywhere in the loop propagates. -/
def adductLoop (M : ℚ) : List String → Res PyExc (List (String × ℚ))
  | [] => .ok []
  | name :: rest =>
      match adductMass M name with
      | .err e => .err e
      | .ok m =>
          match adductLoop M rest with
          | .err e => .err e
          | .ok tail => .ok ((name, m) :: tail)

/-- The per-row result dict of `calculate_adducts`: the fixed keys
`"Formula"`, `"Neutral Mass (M)"`, `"状态"`, and the appended adduct
entries.  Absent keys are `none` / `[]`. -/
structure RowResult where
  formula : Option String
  neutralMass : Option ℚ
  status : String
  adducts : List (String × ℚ)
deriving DecidableEq

/-- The dict `{"状态": "空值"}` returned for blank or `nan` input
(app.py line 55). -/
def emptyRow : RowResult :=
  { formula := none, neutralMass := none, status := "空值", adducts := [] }

/-- The dict `{"状态": "格式错误"}` returned by the `except` handler
(app.py line 87). -/
def formatErrorRow : RowResult :=
  { formula := none, neutralMass := none, status := "格式错误", adducts := [] }

/-- The body of the `try:` block of `calculate_adducts` (app.py lines
52–84): strip, empty/`nan` short-circuit, parse, neutral mass, adduct
loop.  `.err` is an exception escaping the body. -/
def calcBody (formula_str : String) (selected : List String) : Res PyExc RowResult :=
  let f_str := pyStrip formula_str
  if f_str = "" ∨ pyLower f_str = "nan" then .ok emptyRow
  else
    match parseFml f_str with
    | .err k => .err (.formulaError k)
    | .ok (fml, _, mono) =>
        match adductLoop mono selected with
        | .err e => .err e
        | .ok ads =>
            .ok { formula := some fml, neutralMass := some mono,
                  status := "成功", adducts := ads }

/-- `calculate_adducts` (app.py lines 47–87): the body wrapped in
`try/except Exception`, every exception becoming the `"格式错误"` row. -/
def calculate_adducts (formula_str : String) (selected : List String) : RowResult :=
  match calcBody formula_str selected with
  | .ok r => r
  | .err _ => formatErrorRow

/-- The transform kind of an adduct rule as the spec states it (§3
"AdductRule"): `simple` adds a delta, `dimer` doubles the neutral mass
before adding, `multiCharge` divides by the charge. -/
inductive RuleKind where
  | simple (delta : ℚ)
  | dimer (delta : ℚ)
  | multiCharge (n : Nat) (protonMass : ℚ)
deriving DecidableEq

/-- The spec's reading of the adduct catalog: each label of `ADDUCTS_LIB`
classified by rule kind with its constants (spec §3/§4.2; this is the
spec-side description to compare the code against). -/
def SPEC_RULES : List (String × RuleKind) :=
  [("[M+H]+", .simple 1.007276),
   ("[M+Na]+", .simple 22.989769),
   ("[M+NH4]+", .simple 18.034374),
   ("[M+K]+", .simple 38.963706),
   ("[M+2H]2+", .multiCharge 2 1.007276),
   ("[2M+H]+", .dimer 1.007276),
   ("[2M+Na]+", .dimer 22.989769),
   ("[M-H]-", .simple (-1.007276)),
   ("[M+Cl]-", .simple 34.968853),
   ("[M+HCOO]-", .simple 44.997655),
   ("[M+CH3COO]-", .simple 59.013305)]

/-- The m/z a rule prescribes for neutral mass `M` (spec §4.2):
`simple` → `M + delta`, `dimer` → `2M + delta`,
`multiCharge` → `(M + n·protonMass)/n`. -/
def ruleValue (M : ℚ) : RuleKind → ℚ
  | .simple d => M + d
  | .dimer d => 2 * M + d
  | .multiCharge n p => (M + (n : ℚ) * p) / (n : ℚ)

/-!  Helper lemmas shared by the claim theorems. -/

/-- The code's adduct computation agrees with the spec's rule for every
cataloged label: the three special cases realize the dimer and
multi-charge rules, the fall-through realizes the simple rule. -/
theorem adductMass_spec (M : ℚ) (name : String) (kind : RuleKind)
    (h : (name, kind) ∈ SPEC_RULES) :
    adductMass M name = .ok (ruleValue M kind) := by
  fin_cases h <;>
    simp [adductMass, ADDUCTS_LIB, ruleValue, List.lookup] <;>
    try ring

/-- When every selected label is cataloged, the adduct loop succeeds and
its output contains, for each selected label, the rule value of that
label's kind. -/
theorem adductLoop_ok (M : ℚ) (sel : List String)
    (hall : ∀ n ∈ sel, ∃ k, (n, k) ∈ SPEC_RULES) :
    ∃ ads, adductLoop M sel = .ok ads ∧
      ∀ name kind, name ∈ sel → (name, kind) ∈ SPEC_RULES →
        (name, ruleValue M kind) ∈ ads := by
  induction sel with
  | nil => exact ⟨[], rfl, by simp⟩
  | cons x xs ih =>
      obtain ⟨k, hk⟩ := hall x (by simp)
      obtain ⟨tail, htail, hmem⟩ := ih (fun n hn => hall n (by simp [hn]))
      refine ⟨(x, ruleValue M k) :: tail, ?_, ?_⟩
      · simp [adductLoop, adductMass_spec M x k hk, htail]
      · intro name kind hsel hkind
        rcases List.mem_cons.mp hsel with hx | hxs
        · subst hx
          have h1 := adductMass_spec M name k hk
          have h2 := adductMass_spec M name kind hkind
          have : ruleValue M kind = ruleValue M k := by
            have h3 := h2.symm.trans h1
            exact (Res.ok.injEq _ _).mp h3
          simp [this]
        · exact List.mem_cons_of_mem _ (hmem name kind hxs hkind)

/-- A label absent from `ADDUCTS_LIB` makes the loop body raise
`TypeError` (`mono_mass + None`). -/
theorem adductMass_unknown (M : ℚ) (name : String)
    (h : ADDUCTS_LIB.lookup name = none) :
    adductMass M name = .err .typeError := by
  have h1 : name ≠ "[2M+H]+" := by rintro rfl; revert h; decide
  have h2 : name ≠ "[2M+Na]+" := by rintro rfl; revert h; decide
  have h3 : name ≠ "[M+2H]2+" := by rintro rfl; revert h; decide
  simp only [adductMass, if_neg h1, if_neg h2, if_neg h3, h]

/-- If any selected label is absent from `ADDUCTS_LIB`, the whole adduct
loop raises. -/
theorem adductLoop_err (M : ℚ) (sel : List String) (name : String)
    (hmem : name ∈ sel) (h : ADDUCTS_LIB.lookup name = none) :
    ∃ e, adductLoop M sel = .err e := by
  induction sel with
  | nil => simp at hmem
  | cons x xs ih =>
      rcases List.mem_cons.mp hmem with hx | hxs
      · subst hx
        exact ⟨.typeError, by simp [adductLoop, adductMass_unknown M name h]⟩
      · match hx : adductMass M x with
        | .err e => exact ⟨e, by simp [adductLoop, hx]⟩
        | .ok m =>
            obtain ⟨e, he⟩ := ih hxs
            exact ⟨e, by simp [adductLoop, hx, he]⟩

/-- Every normal (non-raising) run of the body yields either the empty
row or a success row carrying the formula, the neutral mass and the
computed adduct entries. -/
theorem calcBody_ok_shape (s : String) (sel : List String) (r : RowResult)
    (h : calcBody s sel = .ok r) :
    r = emptyRow ∨
      ∃ fml M ads, r = { formula := some fml, neutralMass := some M,
                         status := "成功", adducts := ads } := by
  simp only [calcBody] at h
  split at h
  · exact Or.inl ((Res.ok.injEq _ _).mp h).symm
  · split at h
    · exact absurd h (by simp)
    · split at h
      · exact absurd h (by simp)
      · exact Or.inr ⟨_, _, _, ((Res.ok.injEq _ _).mp h).symm⟩

/-!  Claim theorems. -/

/-- C1: for every successfully parsed formula with neutral monoisotopic
mass `M` and every selected adduct label, the computed m/z follows the
label's rule kind — `simple` gives `M + delta`, the dimers give
`2M + delta`, and `[M+2H]2+` gives `(M + 2·1.007276)/2`. -/
theorem adduct_rule_correct (s : String) (sel : List String)
    (fml : String) (el : List (String × Nat)) (M : ℚ)
    (name : String) (kind : RuleKind)
    (h0 : ¬(pyStrip s = "" ∨ pyLower (pyStrip s) = "nan"))
    (h1 : parseFml (pyStrip s) = .ok (fml, el, M))
    (h2 : ∀ n ∈ sel, ∃ k, (n, k) ∈ SPEC_RULES)
    (h3 : name ∈ sel) (h4 : (name, kind) ∈ SPEC_RULES) :
    (name, ruleValue M kind) ∈ (calculate_adducts s sel).adducts := by
  obtain ⟨ads, hads, hmem⟩ := adductLoop_ok M sel h2
  simp only [calculate_adducts, calcBody, if_neg h0, h1, hads]
  exact hmem name kind h3 h4

/-- Evaluation of the formula parser model on `"H2O"`. -/
theorem parse_H2O :
    parseFml (pyStrip "H2O") = .ok ("H2O", [("H", 2), ("O", 1)], (18.01056468374 : ℚ)) := by
  have hdata : stripWs (pyStrip "H2O") = ['H', '2', 'O'] := by decide
  have htok : tokenize ['H', '2', 'O'] = [⟨['H'], ['2']⟩, ⟨['O'], []⟩] := by decide
  have hfu : firstUnknown [⟨['H'], ['2']⟩, ⟨['O'], []⟩] = none := by decide
  have hbm : buildMap [⟨['H'], ['2']⟩, ⟨['O'], []⟩] = [("H", 2), ("O", 1)] := by decide
  have hmass : mapMass [("H", 2), ("O", 1)] = (18.01056468374 : ℚ) := by
    simp [mapMass, lookupMass, ELEMENT_MASS, List.lookup]
    norm_num
  simp only [parseFml, hdata, parseCleaned, htok, hfu, hbm, hmass]
  norm_num [tokensLen]

/-- Witness for C1 at `"H2O"`, label `[M+H]+`. -/
theorem adduct_rule_correct_witness :
    parseFml (pyStrip "H2O") = .ok ("H2O", [("H", 2), ("O", 1)], (18.01056468374 : ℚ)) ∧
    ("[M+H]+", (19.01784068374 : ℚ)) ∈ (calculate_adducts "H2O" ["[M+H]+"]).adducts := by
  refine ⟨parse_H2O, ?_⟩
  have h := adduct_rule_correct "H2O" ["[M+H]+"] "H2O" [("H", 2), ("O", 1)]
    (18.01056468374 : ℚ) "[M+H]+" (.simple 1.007276)
    (by decide) parse_H2O
    (by intro n hn
        simp only [List.mem_singleton] at hn
        exact ⟨.simple 1.007276, by rw [hn]; simp [SPEC_RULES]⟩)
    (by decide) (by simp [SPEC_RULES])
  have hv : ruleValue (18.01056468374 : ℚ) (.simple 1.007276) = (19.01784068374 : ℚ) := by
    simp [ruleValue]; norm_num
  rwa [hv] at h

/-- C2: the per-formula calculation is total — every row result carries one
of the three status values of the source, and when the body raises, the
exception is captured as the `"格式错误"` row instead of propagating to
the caller, so one bad row cannot abort a batch. -/
theorem row_status_total (s : String) (sel : List String) :
    ((calculate_adducts s sel).status = "空值" ∨
     (calculate_adducts s sel).status = "成功" ∨
     (calculate_adducts s sel).status = "格式错误") ∧
    (∀ e, calcBody s sel = .err e → calculate_adducts s sel = formatErrorRow) := by
  constructor
  · match hb : calcBody s sel with
    | .err e => simp [calculate_adducts, hb, formatErrorRow]
    | .ok r =>
        rcases calcBody_ok_shape s sel r hb with hr | ⟨fml, M, ads, hr⟩ <;>
          simp [calculate_adducts, hb, hr, emptyRow]
  · intro e he
    simp [calculate_adducts, he]

/-- Witness for C2: a malformed row raises inside the body and is captured
as the `"格式错误"` row. -/
theorem row_status_total_witness :
    calcBody "xx" ["[M+H]+"] = .err (.formulaError .unsupportedCharacters) ∧
    calculate_adducts "xx" ["[M+H]+"] = formatErrorRow :=
  ⟨by decide, (row_status_total "xx" ["[M+H]+"]).2 (.formulaError .unsupportedCharacters) (by decide)⟩

/-- C3: empty, whitespace-only, or (case-insensitively, after trimming)
`"nan"` inputs yield the `"空值"` row, which has no neutral mass and no
adduct masses. -/
theorem empty_input_row (s : String) (sel : List String)
    (h : pyStrip s = "" ∨ pyLower (pyStrip s) = "nan") :
    calculate_adducts s sel = emptyRow := by
  simp only [calculate_adducts, calcBody, if_pos h]

/-- Witness for C3 at the mixed-case, padded placeholder `"  NaN  "`. -/
theorem empty_input_row_witness :
    (pyStrip "  NaN  " = "" ∨ pyLower (pyStrip "  NaN  ") = "nan") ∧
    calculate_adducts "  NaN  " DEFAULT_SELECTION = emptyRow :=
  ⟨by decide, empty_input_row "  NaN  " DEFAULT_SELECTION (by decide)⟩

/-- C4 (amended): an input containing the "and" separator `和` receives no
special handling — the whole string is handed to the parser, whose
tokenizer cannot consume the separator, and the row comes back as the
`"格式错误"` row: no mass for the first compound, and no `MultiCompound`
status exists anywhere in the code. -/
theorem multi_compound_not_reported (sel : List String) :
    calculate_adducts "NaCl和KBr" sel = formatErrorRow := by
  have hp : parseFml (pyStrip "NaCl和KBr") = .err .unsupportedCharacters := by decide
  have hne : ¬(pyStrip "NaCl和KBr" = "" ∨ pyLower (pyStrip "NaCl和KBr") = "nan") := by decide
  simp [calculate_adducts, calcBody, if_neg hne, hp]

/-- Counterexample to C4 as stated: on `"NaCl和KBr"` the status is the
generic `"格式错误"` (not a `MultiCompound` marker) and no mass is
computed for the `NaCl` prefix. -/
theorem multi_compound_counterexample :
    (calculate_adducts "NaCl和KBr" DEFAULT_SELECTION).status = "格式错误" ∧
    (calculate_adducts "NaCl和KBr" DEFAULT_SELECTION).neutralMass = none ∧
    (calculate_adducts "NaCl和KBr" DEFAULT_SELECTION).adducts = [] := by
  decide

/-- C5 (amended): an adduct label outside `ADDUCTS_LIB` does not fail
fast; for any input past the empty/`nan` check it surfaces as that row's
`"格式错误"` status — the same per-row data-error row a malformed
formula produces. -/
theorem unknown_adduct_per_row_error (s : String) (sel : List String) (name : String)
    (h0 : ¬(pyStrip s = "" ∨ pyLower (pyStrip s) = "nan"))
    (h1 : name ∈ sel) (h2 : ADDUCTS_LIB.lookup name = none) :
    calculate_adducts s sel = formatErrorRow := by
  simp only [calculate_adducts, calcBody, if_neg h0]
  match hp : parseFml (pyStrip s) with
  | .err k => simp [hp]
  | .ok (fml, el, M) =>
      obtain ⟨e, he⟩ := adductLoop_err M sel name h1 h2
      simp [hp, he]

/-- Witness for C5 (amended) at `"H2O"` with the uncataloged label
`"ZZZ"`. -/
theorem unknown_adduct_per_row_error_witness :
    ¬(pyStrip "H2O" = "" ∨ pyLower (pyStrip "H2O") = "nan") ∧
    "ZZZ" ∈ ["ZZZ"] ∧ ADDUCTS_LIB.lookup "ZZZ" = none ∧
    calculate_adducts "H2O" ["ZZZ"] = formatErrorRow :=
  ⟨by decide, by decide, by decide,
    unknown_adduct_per_row_error "H2O" ["ZZZ"] "ZZZ" (by decide) (by decide) (by decide)⟩

/-- Counterexample to C5 as stated: requesting the unknown label `"QQQ"`
for a perfectly good formula does not abort the call — it returns the
identical per-row `"格式错误"` row that genuinely bad row data (here
`"C6H!!"`) produces. -/
theorem unknown_adduct_counterexample :
    calculate_adducts "H2O" ["QQQ"] = formatErrorRow ∧
    calculate_adducts "C6H!!" ["[M+H]+"] = formatErrorRow := by
  decide

/-- C6 (amended): untokenizable syntax and an unknown element are distinct
failures inside the parser model (`UnsupportedCharacters` versus
`UnknownElement "Xe"`), but the catch-all of `calculate_adducts` collapses
both to the same `"格式错误"` row, so the two outcomes are not
distinguishable in the returned result. -/
theorem parse_errors_collapsed (sel : List String) :
    parseFml (pyStrip "C6H(12)O6") = .err .unsupportedCharacters ∧
    parseFml (pyStrip "C6Xe6") = .err (.unknownElement "Xe") ∧
    calculate_adducts "C6H(12)O6" sel = formatErrorRow ∧
    calculate_adducts "C6Xe6" sel = formatErrorRow := by
  refine ⟨by decide, by decide, ?_, ?_⟩
  · have hp : parseFml (pyStrip "C6H(12)O6") = .err .unsupportedCharacters := by decide
    have hne : ¬(pyStrip "C6H(12)O6" = "" ∨ pyLower (pyStrip "C6H(12)O6") = "nan") := by decide
    simp [calculate_adducts, calcBody, if_neg hne, hp]
  · have hp : parseFml (pyStrip "C6Xe6") = .err (.unknownElement "Xe") := by decide
    have hne : ¬(pyStrip "C6Xe6" = "" ∨ pyLower (pyStrip "C6Xe6") = "nan") := by decide
    simp [calculate_adducts, calcBody, if_neg hne, hp]

/-- Counterexample to C6 as stated: the rows returned for the
untokenizable `"C6H(12)O6"` and the unknown-element `"C6Xe6"` are
identical, so nothing in the result distinguishes the two failure
kinds. -/
theorem parse_errors_counterexample :
    calculate_adducts "C6H(12)O6" DEFAULT_SELECTION =
      calculate_adducts "C6Xe6" DEFAULT_SELECTION ∧
    (calculate_adducts "C6H(12)O6" DEFAULT_SELECTION).status = "格式错误" := by
  decide

/-- C7: every `simple` and `dimer` rule of the catalog is strictly
monotone in the neutral mass: for `M1 < M2` the code computes both m/z
values and the one for `M2` is strictly larger. -/
theorem simple_dimer_monotone (name : String) (kind : RuleKind) (M1 M2 : ℚ)
    (hmem : (name, kind) ∈ SPEC_RULES)
    (hkind : (∃ d, kind = RuleKind.simple d) ∨ (∃ d, kind = RuleKind.dimer d))
    (hlt : M1 < M2) :
    adductMass M1 name = .ok (ruleValue M1 kind) ∧
    adductMass M2 name = .ok (ruleValue M2 kind) ∧
    ruleValue M1 kind < ruleValue M2 kind := by
  refine ⟨adductMass_spec M1 name kind hmem, adductMass_spec M2 name kind hmem, ?_⟩
  rcases hkind with ⟨d, rfl⟩ | ⟨d, rfl⟩ <;> simp [ruleValue] <;> linarith

/-- Witness for C7 at `[M+H]+` with neutral masses `0 < 1`. -/
theorem simple_dimer_monotone_witness :
    adductMass 0 "[M+H]+" = .ok (ruleValue 0 (RuleKind.simple 1.007276)) ∧
    adductMass 1 "[M+H]+" = .ok (ruleValue 1 (RuleKind.simple 1.007276)) ∧
    ruleValue 0 (RuleKind.simple 1.007276) < ruleValue 1 (RuleKind.simple 1.007276) :=
  simple_dimer_monotone "[M+H]+" (RuleKind.simple 1.007276) 0 1
    (by simp [SPEC_RULES]) (Or.inl ⟨_, rfl⟩) (by norm_num)

/-- C8: with no adducts selected, a successfully parsed formula still
yields a `"成功"` row carrying its neutral monoisotopic mass. -/
theorem no_adducts_still_mass (s : String) (fml : String)
    (el : List (String × Nat)) (M : ℚ)
    (h0 : ¬(pyStrip s = "" ∨ pyLower (pyStrip s) = "nan"))
    (h1 : parseFml (pyStrip s) = .ok (fml, el, M)) :
    calculate_adducts s [] =
      { formula := some fml, neutralMass := some M,
        status := "成功", adducts := [] } := by
  simp [calculate_adducts, calcBody, if_neg h0, h1, adductLoop]

/-- Witness for C8 at `"H2O"`. -/
theorem no_adducts_still_mass_witness :
    ¬(pyStrip "H2O" = "" ∨ pyLower (pyStrip "H2O") = "nan") ∧
    calculate_adducts "H2O" [] =
      { formula := some "H2O", neutralMass := some (18.01056468374 : ℚ),
        status := "成功", adducts := [] } :=
  ⟨by decide,
    no_adducts_still_mass "H2O" "H2O" [("H", 2), ("O", 1)] (18.01056468374 : ℚ)
      (by decide) parse_H2O⟩

/-- C9: the parser strips every whitespace character before tokenizing, so
two inputs with the same non-whitespace characters parse to the same
element-count mapping, mass and failure kind. -/
theorem whitespace_insensitive_parse (s1 s2 : String)
    (h : s1.data.filter (fun c => ¬ c.isWhitespace) =
         s2.data.filter (fun c => ¬ c.isWhitespace)) :
    parseFml s1 = parseFml s2 := by
  have hs : stripWs s1 = stripWs s2 := h
  simp only [parseFml, hs]

/-- Evaluation of the formula parser model on `"C6H12O6"`. -/
theorem parse_C6H12O6 :
    parseFml "C6H12O6" =
      .ok ("C6H12O6", [("C", 6), ("H", 12), ("O", 6)], (180.06338810244 : ℚ)) := by
  have hdata : stripWs "C6H12O6" = ['C', '6', 'H', '1', '2', 'O', '6'] := by decide
  have htok : tokenize ['C', '6', 'H', '1', '2', 'O', '6'] =
      [⟨['C'], ['6']⟩, ⟨['H'], ['1', '2']⟩, ⟨['O'], ['6']⟩] := by decide
  have hfu : firstUnknown [⟨['C'], ['6']⟩, ⟨['H'], ['1', '2']⟩, ⟨['O'], ['6']⟩] = none := by
    decide
  have hbm : buildMap [⟨['C'], ['6']⟩, ⟨['H'], ['1', '2']⟩, ⟨['O'], ['6']⟩] =
      [("C", 6), ("H", 12), ("O", 6)] := by decide
  have hmass : mapMass [("C", 6), ("H", 12), ("O", 6)] = (180.06338810244 : ℚ) := by
    simp [mapMass, lookupMass, ELEMENT_MASS, List.lookup]
    norm_num
  simp only [parseFml, hdata, parseCleaned, htok, hfu, hbm, hmass]
  norm_num [tokensLen]

/-- Witness for C9: inserting internal spaces into the valid formula
`"C6H12O6"` leaves the parse result — mapping and mass — unchanged. -/
theorem whitespace_insensitive_parse_witness :
    ("C6 H12 O6".data.filter (fun c => ¬ c.isWhitespace) =
      "C6H12O6".data.filter (fun c => ¬ c.isWhitespace)) ∧
    parseFml "C6 H12 O6" = parseFml "C6H12O6" ∧
    parseFml "C6H12O6" =
      .ok ("C6H12O6", [("C", 6), ("H", 12), ("O", 6)], (180.06338810244 : ℚ)) :=
  ⟨by decide, whitespace_insensitive_parse "C6 H12 O6" "C6H12O6" (by decide), parse_C6H12O6⟩

/-- C10: whenever the calculation fails — also when the failure happens in
the adduct loop, after the neutral mass was computed — the returned row is
exactly the bare `"格式错误"` row: no formula, no neutral mass, no adduct
entries, no partial results. -/
theorem error_row_atomic (s : String) (sel : List String)
    (h : (calculate_adducts s sel).status = "格式错误") :
    calculate_adducts s sel = formatErrorRow := by
  match hb : calcBody s sel with
  | .err e => simp [calculate_adducts, hb]
  | .ok r =>
      exfalso
      have hs : calculate_adducts s sel = r := by simp [calculate_adducts, hb]
      rw [hs] at h
      rcases calcBody_ok_shape s sel r hb with hr | ⟨fml, M, ads, hr⟩ <;>
        subst hr <;> simp [emptyRow] at h

/-- Witness for C10: `"H2O"` with the unknown label `"BOGUS"` fails inside
the adduct loop, after the neutral mass was computed, and exposes none of
it. -/
theorem error_row_atomic_witness :
    (calculate_adducts "H2O" ["BOGUS"]).status = "格式错误" ∧
    calculate_adducts "H2O" ["BOGUS"] = formatErrorRow :=
  ⟨by decide, error_row_atomic "H2O" ["BOGUS"] (by decide)⟩
